import Mathlib

/-!
Verification of the ZivaFinance ledger valuation and debt amortization engine.

The definitions below are a shallow embedding of the Python source:
* `components/transactions_page.py` (`_get_signed_amount`,
  `_compute_account_balances`, `_upsert_settlement_transfer`),
* `components/accounts_manager.py` (`_get_signed_amount`, `_get_live_balances`),
* `components/loan_calculator.py` (`_calculate_annuity_payment`,
  `_generate_schedule`, `_dialog_generate_transactions`),
* `_backup_i18n_migration/main.py` (`calculate_monthly_budget_target`).

Python floats are modelled as exact rationals (`ℚ`); calendar dates as a
`Date` structure with `dateutil.relativedelta`-style month arithmetic;
nullable or unparsable values as `Option`.
-/

namespace Ziva

/-! ## Calendar dates -/

/-- A calendar date, mirroring Python `datetime.date`. -/
structure Date where
  year : ℕ
  month : ℕ
  day : ℕ
deriving DecidableEq

/-- Python date ordering (lexicographic on year, month, day). -/
def dateLeB (a b : Date) : Bool :=
  decide (a.year < b.year) ||
  (decide (a.year = b.year) &&
    (decide (a.month < b.month) ||
     (decide (a.month = b.month) && decide (a.day ≤ b.day))))

/-- Python strict date ordering. -/
def dateLtB (a b : Date) : Bool :=
  dateLeB a b && !(decide (a = b))

/-- Gregorian leap-year test, as in Python `calendar`. -/
def isLeapYear (y : ℕ) : Bool :=
  (decide (y % 4 = 0) && decide (y % 100 ≠ 0)) || decide (y % 400 = 0)

/-- Number of days in a month, as used by `relativedelta` day clamping. -/
def daysInMonth (y m : ℕ) : ℕ :=
  if m = 2 then (if isLeapYear y then 29 else 28)
  else if m = 4 ∨ m = 6 ∨ m = 9 ∨ m = 11 then 30
  else 31

/-- `d + relativedelta(months=+n)`: advance by whole months, clamping the
day-of-month to the target month length. -/
def addMonths (d : Date) (n : ℕ) : Date :=
  let total := d.year * 12 + (d.month - 1) + n
  let y := total / 12
  let m := total % 12 + 1
  { year := y, month := m, day := min d.day (daysInMonth y m) }

/-- Python `date.replace(day=k)` on an in-range day. -/
def replaceDay (d : Date) (k : ℕ) : Date :=
  { d with day := k }

/-- Python `date.replace(day=k)` with its `ValueError` made explicit:
`none` models the exception raised when `k` is out of range for the
month. -/
def replaceDayChecked (d : Date) (k : ℕ) : Option Date :=
  if 1 ≤ k ∧ k ≤ daysInMonth d.year d.month then some { d with day := k }
  else none

/-- Python `date.replace(day=1)`, the month truncation used by the budget
resolver. -/
def firstOfMonth (d : Date) : Date :=
  replaceDay d 1

/-- `_count_months(start, end)`: whole months between two dates via
`relativedelta`, i.e. `diff.years * 12 + diff.months`. -/
def countMonths (s e : Date) : ℤ :=
  let dm : ℤ := ((e.year : ℤ) * 12 + e.month) - ((s.year : ℤ) * 12 + s.month)
  if e.day < s.day then dm - 1 else dm

/-! ## Python string handling -/

/-- Python `str.lower()` (ASCII case fold, as used on the `type` column). -/
def pyLower (s : String) : String :=
  String.mk (s.data.map Char.toLower)

/-- Whitespace recognised by Python `str.strip()`. -/
def isPySpace (c : Char) : Bool :=
  decide (c = ' ') || decide (c = '\t') || decide (c = '\n') || decide (c = '\r')

/-- Python `str.strip()`. -/
def pyStrip (s : String) : String :=
  String.mk (((s.data.dropWhile isPySpace).reverse.dropWhile isPySpace).reverse)

/-- The `str(x).strip().lower()` normalization applied to transaction kinds. -/
def normalizeKind (s : String) : String :=
  pyLower (pyStrip s)

/-- Helper for `str.contains`: does `pat` occur at some position of `l`? -/
def subAt (pat : List Char) : List Char → Bool
  | [] => pat.isEmpty
  | c :: rest => pat.isPrefixOf (c :: rest) || subAt pat rest

/-- Pandas `str.contains(pat)` on a string column entry. -/
def strContains (s pat : String) : Bool :=
  subAt pat.data s.data

/-- The auto-settlement tag tested by `str.contains("Auto-settle")`. -/
def hasAutoSettle (desc : String) : Bool :=
  strContains desc "Auto-settle"

/-! ## SignedLedgerClassifier (`_get_signed_amount`) -/

/-- `transactions_page._get_signed_amount`: signed monetary effect of a
transaction, derived from its `type` and stored `amount`. -/
def getSignedAmount (ty : String) (amount : ℚ) : ℚ :=
  let t := normalizeKind ty
  if t = "income" ∨ t = "deposit" ∨ t = "refund" then amount
  else if t = "expense" ∨ t = "transfer" ∨ t = "withdrawal" ∨ t = "payment" then -|amount|
  else if t = "opening balance" then amount
  else 0

/-- `accounts_manager._get_signed_amount`: same classifier, with the
positive kinds grouped in one membership test. -/
def getSignedAmountAM (ty : String) (amount : ℚ) : ℚ :=
  let t := normalizeKind ty
  if t = "income" ∨ t = "opening balance" ∨ t = "deposit" ∨ t = "refund" then amount
  else if t = "expense" ∨ t = "transfer" ∨ t = "withdrawal" ∨ t = "payment" then -|amount|
  else 0

/-! ## Transactions and balance aggregation -/

/-- A row of the `transactions` table. An unparsable or missing date is
`none` (pandas `NaT` after `to_datetime(errors="coerce")`). -/
structure TxRec where
  user_id : String
  date : Option Date
  amount : ℚ
  type : String
  account : String
  category : String
  payee : String
  description : String
deriving DecidableEq

/-- `transactions_page._compute_account_balances`, read at one account:
unparsable dates are filled with today, rows are filtered to
`date ≤ today`, and the signed amounts are summed per account. -/
def computeAccountBalances (today : Date) (txs : List TxRec) (acct : String) : ℚ :=
  let current := txs.filter (fun t => dateLeB (t.date.getD today) today)
  (((current.filter (fun t => decide (t.account = acct))).map
    (fun t => getSignedAmount t.type t.amount)).sum)

/-- `accounts_manager._get_live_balances`, read at one account: rows are
filtered to `date_dt ≤ today`, which drops `NaT` dates (a pandas
comparison with `NaT` is false), then signed amounts are summed. -/
def getLiveBalances (today : Date) (txs : List TxRec) (acct : String) : ℚ :=
  let current := txs.filter (fun t =>
    match t.date with
    | some d => dateLeB d today
    | none => false)
  (((current.filter (fun t => decide (t.account = acct))).map
    (fun t => getSignedAmountAM t.type t.amount)).sum)

/-! ## SettlementReconciler (`_upsert_settlement_transfer`) -/

/-- The fields of an `accounts` row consulted by the reconciler. -/
structure Account where
  name : String
  account_type : String
  credit_due_day : Option ℕ
  credit_source_account : Option String
deriving DecidableEq

/-- `int(this_acc.get("credit_due_day", 20) or 20)`: a missing or falsy
(zero) due day defaults to 20. -/
def resolveDueDay : Option ℕ → ℕ
  | none => 20
  | some 0 => 20
  | some d => d

/-- `this_acc.get("credit_source_account") or "Brukskonto"`: a missing or
empty funding account defaults to `"Brukskonto"`. -/
def resolveSource : Option String → String
  | none => "Brukskonto"
  | some s => if s = "" then "Brukskonto" else s

/-- The `month_mask`: transactions of the card account in the triggering
transaction month, excluding rows already tagged as auto-settlement. -/
def monthMask (selected : String) (td : Date) (t : TxRec) : Bool :=
  decide (t.account = selected) &&
  (match t.date with
   | some d => decide (d.month = td.month) && decide (d.year = td.year)
   | none => false) &&
  !(hasAutoSettle t.description)

/-- `monthly_net_total`: the classified sum over the month mask. -/
def settlementNet (selected : String) (td : Date) (txs : List TxRec) : ℚ :=
  ((txs.filter (monthMask selected td)).map
    (fun t => getSignedAmount t.type t.amount)).sum

/-- `target_transfer_amount = abs(net) if net < 0 else 0.0`. -/
def settlementAmount (selected : String) (td : Date) (txs : List TxRec) : ℚ :=
  let net := settlementNet selected td txs
  if net < 0 then |net| else 0

/-- The `existing_mask` locating an already-inserted settlement row. -/
def existingMask (uid selected : String) (sd : Date) (t : TxRec) : Bool :=
  decide (t.user_id = uid) && decide (t.date = some sd) &&
  decide (t.account = selected) && decide (t.category = "Transfer") &&
  hasAutoSettle t.description

/-- The `WHERE` clause of the settlement `UPDATE` statement (note: unlike
`existing_mask` it does not test the category). -/
def updateMask (uid selected : String) (sd : Date) (t : TxRec) : Bool :=
  decide (t.user_id = uid) && decide (t.date = some sd) &&
  decide (t.account = selected) && hasAutoSettle t.description

/-- `transactions_page._upsert_settlement_transfer` as a pure ledger
transformer: resolve the card account, compute the settlement date and
amount, then update an existing auto-settlement row in place or insert a
paired outflow/inflow.  The result is `none` exactly when
`(trans_date + relativedelta(months=1)).replace(day=due_day)` raises
`ValueError` (due day out of range for the settlement month), in which
case the function crashes before touching the ledger. -/
def upsertSettlementTransfer (uid : String) (accounts : List Account)
    (selected : String) (dateVal : Option Date) (txs : List TxRec) :
    Option (List TxRec) :=
  match accounts.find? (fun a => decide (a.name = selected)) with
  | none => some txs
  | some acc =>
    if pyStrip acc.account_type ≠ "Credit Card" then some txs
    else
      match dateVal with
      | none => some txs
      | some td =>
        let dueDay := resolveDueDay acc.credit_due_day
        match replaceDayChecked (addMonths td 1) dueDay with
        | none => none
        | some sd =>
          let source := resolveSource acc.credit_source_account
          if txs.isEmpty then some txs
          else
            let target := settlementAmount selected td txs
            if (txs.filter (existingMask uid selected sd)).isEmpty then
              let outT : TxRec :=
                { user_id := uid, date := some sd, amount := target,
                  type := "expense", account := source, category := "Transfer",
                  payee := "Settlement: " ++ selected,
                  description := "Auto-settle for " ++ selected }
              let inT : TxRec :=
                { outT with
                  type := "income", account := selected,
                  payee := "From " ++ source }
              some (txs ++ [outT, inT])
            else
              some (txs.map (fun t =>
                if updateMask uid selected sd t then { t with amount := target }
                else t))

/-! ## RecurringBudgetResolver (`calculate_monthly_budget_target`) -/

/-- A `budget_rules` row; an unparsable `start_date` is `none`. -/
structure BudgetRule where
  category : String
  amount : ℚ
  frequency : String
  start_date : Option Date
  is_active : Bool
  transfer_to_account : Option String
deriving DecidableEq

/-- A due-target row produced by the resolver. -/
structure BudgetTarget where
  category : String
  target : ℚ
  start_date : Date
  transfer_to_account : Option String
deriving DecidableEq

/-- The loop body of `calculate_monthly_budget_target`: skip inactive
rules, rules with unparsable start dates, and rules starting after the
target month; otherwise test the cadence on the elapsed months. -/
def budgetRuleTarget (monthDate : Date) (r : BudgetRule) : Option BudgetTarget :=
  if !r.is_active then none
  else
    match r.start_date with
    | none => none
    | some s =>
      if dateLtB monthDate (firstOfMonth s) then none
      else
        let dm : ℤ := ((monthDate.year : ℤ) - s.year) * 12 + ((monthDate.month : ℤ) - s.month)
        let isDue : Bool :=
          if r.frequency = "Monthly" then true
          else if r.frequency = "Quarterly" then decide (dm % 3 = 0)
          else if r.frequency = "Yearly" then decide (dm % 12 = 0)
          else if r.frequency = "Bi-Monthly" then decide (dm % 2 = 0)
          else if r.frequency = "Semi-Annually" then decide (dm % 6 = 0)
          else false
        if isDue then
          some { category := r.category, target := r.amount, start_date := s,
                 transfer_to_account := r.transfer_to_account }
        else none

/-- `drop_duplicates(subset="category", keep="first")`. -/
def dedupByCategory (seen : List String) : List BudgetTarget → List BudgetTarget
  | [] => []
  | t :: rest =>
    if t.category ∈ seen then dedupByCategory seen rest
    else t :: dedupByCategory (t.category :: seen) rest

/-- `calculate_monthly_budget_target`: collect the due rules, order by
most recent start date, and keep one target per category. -/
def calculateMonthlyBudgetTarget (monthDate : Date) (rules : List BudgetRule) :
    List BudgetTarget :=
  let hits := rules.filterMap (budgetRuleTarget monthDate)
  let sorted := hits.mergeSort (fun a b => dateLeB b.start_date a.start_date)
  dedupByCategory [] sorted

/-! ## AmortizationScheduleEngine (`_generate_schedule`) -/

/-- A `loan_terms_history` row (rate/fee change effective from a date). -/
structure TermsChange where
  date : Date
  rate : ℚ
  fee : ℚ
deriving DecidableEq

/-- One row of the generated schedule (the dict appended per month). -/
structure Period where
  month : ℕ
  date : Date
  startBalance : ℚ
  interest : ℚ
  ratePct : ℚ
  fee : ℚ
  principal : ℚ
  extra : ℚ
  adminFee : ℚ
  totalPayment : ℚ
  endBalance : ℚ
  status : String
deriving DecidableEq

/-- The arguments of `_generate_schedule`. -/
structure LoanCfg where
  balance : ℚ
  rate : ℚ
  startDate : Date
  paymentDay : ℕ
  mode : String
  loanType : String
  targetPayment : ℚ
  targetDate : Option Date
  adminFee : ℚ
  extraPayments : List (Date × ℚ)
  termsHistory : List TermsChange
  ioFrom : Option Date
  ioTo : Option Date

/-- The mutable loop state of `_generate_schedule`. -/
structure LoopState where
  balance : ℚ
  rate : ℚ
  fee : ℚ
  fixedPrincipal : ℚ
  annuityPayment : ℚ
  date : Date
  monthIdx : ℕ

/-- `_calculate_annuity_payment`: standard annuity formula with
closed-form fallbacks for a non-positive horizon or rate. -/
def calculateAnnuityPayment (principal annualRate : ℚ) (months : ℤ) : ℚ :=
  if months ≤ 0 then principal
  else if annualRate ≤ 0 then principal / (months : ℚ)
  else
    let r := (annualRate / 100) / 12
    (r * principal) / (1 - ((1 + r) ^ months.toNat)⁻¹)

/-- The inner `recalculate_payment` closure: in target-date mode solve for
the payment over the clamped remaining horizon, otherwise return the
configured fixed payment. -/
def recalculatePayment (cfg : LoanCfg) (currBal currRate : ℚ) (calcDate : Date) : ℚ :=
  match cfg.targetDate with
  | some tdt =>
    if cfg.mode = "date" then
      let remMonths : ℤ := max 1 (countMonths calcDate tdt)
      if cfg.loanType = "Serial" then currBal / (remMonths : ℚ)
      else if cfg.loanType = "Frame" then 0
      else calculateAnnuityPayment currBal currRate remMonths
    else cfg.targetPayment
  | none => cfg.targetPayment

/-- The terms-history scan with early break: the last change whose date is
at or before the current date, walking the sorted list. -/
def activeTerms : List TermsChange → Date → Option TermsChange
  | [], _ => none
  | c :: rest, d =>
    if dateLeB c.date d then some ((activeTerms rest d).getD c) else none

/-- The extras dict keyed by `(year, month)`, summing amounts per key. -/
def extrasFor (extras : List (Date × ℚ)) (y m : ℕ) : ℚ :=
  ((extras.filter (fun e => decide (e.1.year = y) && decide (e.1.month = m))).map
    (fun e => e.2)).sum

/-- One iteration of the `_generate_schedule` while-loop: update effective
terms, optionally re-solve the payment, accrue interest, apply the
interest-only override, clamp principal to the remaining balance, fold in
extra payments (clamping again and refunding the excess from the total),
and emit the period row together with the next loop state. -/
def scheduleStep (cfg : LoanCfg) (terms : List TermsChange) (s : LoopState) :
    Period × LoopState :=
  let active := activeTerms terms s.date
  let newRate := match active with | some c => c.rate | none => cfg.rate
  let newFee := match active with | some c => c.fee | none => cfg.adminFee
  let termsChanged := |newRate - s.rate| > 1 / 1000
  let curRate := newRate
  let curFee := newFee
  let monthlyRate := curRate / 100 / 12
  let pays : ℚ × ℚ :=
    if termsChanged ∧ cfg.mode = "date" ∧ cfg.loanType ≠ "Frame" then
      let b := recalculatePayment cfg s.balance curRate s.date
      if cfg.loanType = "Serial" then (b, s.annuityPayment)
      else if cfg.loanType = "Annuity" then (s.fixedPrincipal, b)
      else (s.fixedPrincipal, s.annuityPayment)
    else (s.fixedPrincipal, s.annuityPayment)
  let fixedPrin := pays.1
  let annPay := pays.2
  let interest := s.balance * monthlyRate
  let isIO : Bool :=
    (match cfg.ioFrom, cfg.ioTo with
     | some f, some t0 => dateLeB f s.date && dateLeB s.date t0
     | _, _ => false) || decide (cfg.loanType = "Frame")
  let pr0 : ℚ × ℚ :=
    if isIO then (0, interest)
    else if cfg.loanType = "Serial" then (fixedPrin, fixedPrin + interest)
    else
      let base := if annPay < interest then interest else annPay
      (base - interest, base)
  let pr1 : ℚ × ℚ :=
    if pr0.1 > s.balance then (s.balance, interest + s.balance) else pr0
  let principalPayment := pr1.1
  let requiredPayment := pr1.2
  let extraAmt := extrasFor cfg.extraPayments s.date.year s.date.month
  let rp0 := principalPayment + extraAmt
  let td0 := requiredPayment + curFee + extraAmt
  let rp2 : ℚ × ℚ :=
    if rp0 > s.balance then (s.balance, td0 - (rp0 - s.balance)) else (rp0, td0)
  let realPrincipal := rp2.1
  let totalDeduction := rp2.2
  let endBalance := s.balance - realPrincipal
  let statusLabel :=
    if cfg.loanType = "Frame" ∧ extraAmt > 0 then "Extra Payment"
    else if isIO then "Interest Only"
    else "Payment"
  ({ month := s.monthIdx, date := s.date, startBalance := s.balance,
     interest := interest, ratePct := curRate, fee := curFee,
     principal := principalPayment, extra := extraAmt, adminFee := curFee,
     totalPayment := totalDeduction, endBalance := max 0 endBalance,
     status := statusLabel },
   { balance := endBalance, rate := curRate, fee := curFee,
     fixedPrincipal := fixedPrin, annuityPayment := annPay,
     date := addMonths s.date 1, monthIdx := s.monthIdx + 1 })

/-- The while-loop of `_generate_schedule`, with the 720-period cap as
structural fuel; the loop body runs only while the balance exceeds 1.0. -/
def genLoop (cfg : LoanCfg) (terms : List TermsChange) :
    ℕ → LoopState → List Period
  | 0, _ => []
  | fuel + 1, s =>
    if s.balance > 1 then
      let ps := scheduleStep cfg terms s
      ps.1 :: genLoop cfg terms fuel ps.2
    else []

/-- `_generate_schedule`: sort the terms history, size the initial
payment, normalize the first payment date to the payment day, and run the
capped loop. -/
def generateSchedule (cfg : LoanCfg) : List Period :=
  let terms := cfg.termsHistory.mergeSort (fun a b => dateLeB a.date b.date)
  let basePayment := recalculatePayment cfg cfg.balance cfg.rate cfg.startDate
  let fixedPrin := if cfg.loanType = "Serial" then basePayment else 0
  let annPay := if cfg.loanType = "Annuity" then basePayment else 0
  let d0 := if cfg.startDate.day > cfg.paymentDay
            then addMonths cfg.startDate 1 else cfg.startDate
  let d1 := replaceDay d0 cfg.paymentDay
  genLoop cfg terms 720
    { balance := cfg.balance, rate := cfg.rate, fee := cfg.adminFee,
      fixedPrincipal := fixedPrin, annuityPayment := annPay,
      date := d1, monthIdx := 1 }

/-! ## Amortization execution (`_dialog_generate_transactions`) -/

/-- The transaction records written when executing a schedule: nothing at
all on an empty schedule (`if df_sched.empty: st.error("Calc error.");
return`), otherwise an optional opening balance, then per generated month
an interest expense, a fee expense, and a principal-payment
outflow/inflow pair. -/
def generateLoanTransactions (uid loanName payFrom : String) (balance : ℚ)
    (initBalance : Bool) (startDateGen : Date) (monthsToGen : ℕ)
    (sched : List Period) : List TxRec :=
  if sched.isEmpty then []
  else
  let rows := sched.take monthsToGen
  let openRecs : List TxRec :=
    if initBalance then
      [{ user_id := uid, date := some startDateGen, amount := -balance,
         type := "opening balance", account := loanName,
         category := "Opening Balance", payee := "System",
         description := "Initial Loan Balance" }]
    else []
  openRecs ++ rows.flatMap (fun p =>
    (if p.interest > 0 then
      [{ user_id := uid, date := some p.date, amount := -p.interest,
         type := "expense", account := payFrom, category := "Loan Interest",
         payee := loanName,
         description := "Loan Interest (" ++ toString p.ratePct ++ "%)" }]
     else []) ++
    (if p.adminFee > 0 then
      [{ user_id := uid, date := some p.date, amount := -p.adminFee,
         type := "expense", account := payFrom, category := "Loan Fees",
         payee := loanName, description := "Loan Fee" }]
     else []) ++
    (let reduction := p.principal + p.extra
     if reduction > 0 then
      [{ user_id := uid, date := some p.date, amount := -reduction,
         type := "expense", account := payFrom, category := "Loan Repayment",
         payee := "To " ++ loanName, description := "Principal Payment" },
       { user_id := uid, date := some p.date, amount := reduction,
         type := "income", account := loanName,
         category := "Principal Reduction", payee := "From " ++ payFrom,
         description := "Principal Payment" }]
     else []))


/-! ## Helper lemmas -/

lemma dateLeB_refl (d : Date) : dateLeB d d = true := by
  simp [dateLeB]

lemma isPrefixOf_append_self (l₁ l₂ : List Char) : l₁.isPrefixOf (l₁ ++ l₂) = true := by
  induction l₁ with
  | nil => simp [List.isPrefixOf]
  | cons c t ih => simp [List.isPrefixOf, ih]

lemma subAt_of_isPrefixOf (pat l : List Char) (h : pat.isPrefixOf l = true) :
    subAt pat l = true := by
  cases l with
  | nil =>
    cases pat with
    | nil => simp [subAt]
    | cons c t => simp [List.isPrefixOf] at h
  | cons c rest => simp [subAt, h]

lemma hasAutoSettle_of_tag (s : String) :
    hasAutoSettle ("Auto-settle for " ++ s) = true := by
  unfold hasAutoSettle strContains
  rw [String.data_append]
  have hsplit : ("Auto-settle for ").data = "Auto-settle".data ++ (" for ").data := by decide
  rw [hsplit, List.append_assoc]
  exact subAt_of_isPrefixOf _ _ (isPrefixOf_append_self _ _)

lemma settlementAmount_nonneg (selected : String) (td : Date) (txs : List TxRec) :
    0 ≤ settlementAmount selected td txs := by
  unfold settlementAmount
  simp only []
  split
  · exact abs_nonneg _
  · exact le_refl 0

/-! ## C1: signed classification -/

/-- C1: after trimming and lowercasing the kind, both `_get_signed_amount`
implementations return `+amount` for income, opening balance, deposit and
refund, `-amount` for expense, transfer, withdrawal and payment, and `0`
for any other kind (for the stored non-negative amounts of the data
model). -/
theorem classify_signed_spec (ty : String) (amt : ℚ) (h : 0 ≤ amt) :
    ((normalizeKind ty = "income" ∨ normalizeKind ty = "opening balance" ∨
      normalizeKind ty = "deposit" ∨ normalizeKind ty = "refund") →
      getSignedAmount ty amt = amt ∧ getSignedAmountAM ty amt = amt) ∧
    ((normalizeKind ty = "expense" ∨ normalizeKind ty = "transfer" ∨
      normalizeKind ty = "withdrawal" ∨ normalizeKind ty = "payment") →
      getSignedAmount ty amt = -amt ∧ getSignedAmountAM ty amt = -amt) ∧
    (¬(normalizeKind ty = "income" ∨ normalizeKind ty = "opening balance" ∨
       normalizeKind ty = "deposit" ∨ normalizeKind ty = "refund") →
     ¬(normalizeKind ty = "expense" ∨ normalizeKind ty = "transfer" ∨
       normalizeKind ty = "withdrawal" ∨ normalizeKind ty = "payment") →
      getSignedAmount ty amt = 0 ∧ getSignedAmountAM ty amt = 0) := by
  refine ⟨?_, ?_, ?_⟩
  · rintro (h1 | h1 | h1 | h1) <;>
      simp [getSignedAmount, getSignedAmountAM, h1]
  · rintro (h1 | h1 | h1 | h1) <;>
      simp [getSignedAmount, getSignedAmountAM, h1, abs_of_nonneg h]
  · intro h1 h2
    push_neg at h1 h2
    obtain ⟨hi, hob, hd, hr⟩ := h1
    obtain ⟨he, ht, hw, hp⟩ := h2
    simp [getSignedAmount, getSignedAmountAM, hi, hob, hd, hr, he, ht, hw, hp]

/-- Witness for C1 at concrete kinds. -/
theorem classify_signed_spec_witness :
    getSignedAmount " Income " 7 = 7 ∧ getSignedAmountAM " Income " 7 = 7 ∧
    getSignedAmount "withdrawal" 7 = -7 ∧ getSignedAmount "bogus-kind" 7 = 0 := by
  refine ⟨?_, ?_, ?_, ?_⟩
  · exact ((classify_signed_spec " Income " 7 (by norm_num)).1 (Or.inl (by decide))).1
  · exact ((classify_signed_spec " Income " 7 (by norm_num)).1 (Or.inl (by decide))).2
  · exact ((classify_signed_spec "withdrawal" 7 (by norm_num)).2.1 (Or.inr (Or.inr (Or.inl (by decide))))).1
  · exact ((classify_signed_spec "bogus-kind" 7 (by norm_num)).2.2 (by decide) (by decide)).1


/-! ## C7: budget cadence -/

set_option maxRecDepth 4000 in
/-- C7: an active budget rule whose month-truncated start date is not
after the target month is due exactly on its cadence (always for Monthly,
every second month for Bi-Monthly, every third for Quarterly, every sixth
for Semi-Annually, every twelfth for Yearly, measured in elapsed months);
inactive or not-yet-started rules are skipped; and a Quarterly rule
starting 2024-01-01 is due in 2024-01, 2024-04 and 2024-07 but not in
2024-02 or 2024-03. -/
theorem budget_rule_due_spec (m : Date) (r : BudgetRule) (s : Date)
    (hs : r.start_date = some s) :
    (r.is_active = true → dateLtB m (firstOfMonth s) = false →
      ((r.frequency = "Monthly" → (budgetRuleTarget m r).isSome) ∧
       (r.frequency = "Bi-Monthly" → ((budgetRuleTarget m r).isSome ↔
         (((m.year : ℤ) - s.year) * 12 + ((m.month : ℤ) - s.month)) % 2 = 0)) ∧
       (r.frequency = "Quarterly" → ((budgetRuleTarget m r).isSome ↔
         (((m.year : ℤ) - s.year) * 12 + ((m.month : ℤ) - s.month)) % 3 = 0)) ∧
       (r.frequency = "Semi-Annually" → ((budgetRuleTarget m r).isSome ↔
         (((m.year : ℤ) - s.year) * 12 + ((m.month : ℤ) - s.month)) % 6 = 0)) ∧
       (r.frequency = "Yearly" → ((budgetRuleTarget m r).isSome ↔
         (((m.year : ℤ) - s.year) * 12 + ((m.month : ℤ) - s.month)) % 12 = 0)))) ∧
    (r.is_active = false → budgetRuleTarget m r = none) ∧
    (dateLtB m (firstOfMonth s) = true → budgetRuleTarget m r = none) ∧
    ((calculateMonthlyBudgetTarget ⟨2024, 1, 1⟩
        [⟨"Savings", 500, "Quarterly", some ⟨2024, 1, 1⟩, true, none⟩]).length = 1 ∧
     (calculateMonthlyBudgetTarget ⟨2024, 4, 1⟩
        [⟨"Savings", 500, "Quarterly", some ⟨2024, 1, 1⟩, true, none⟩]).length = 1 ∧
     (calculateMonthlyBudgetTarget ⟨2024, 7, 1⟩
        [⟨"Savings", 500, "Quarterly", some ⟨2024, 1, 1⟩, true, none⟩]).length = 1 ∧
     (calculateMonthlyBudgetTarget ⟨2024, 2, 1⟩
        [⟨"Savings", 500, "Quarterly", some ⟨2024, 1, 1⟩, true, none⟩]).length = 0 ∧
     (calculateMonthlyBudgetTarget ⟨2024, 3, 1⟩
        [⟨"Savings", 500, "Quarterly", some ⟨2024, 1, 1⟩, true, none⟩]).length = 0) := by
  refine ⟨?_, ?_, ?_, ?_⟩
  · intro hact hlt
    refine ⟨?_, ?_, ?_, ?_, ?_⟩ <;> intro hf <;>
      simp [budgetRuleTarget, hs, hact, hlt, hf]
  · intro hact
    simp [budgetRuleTarget, hact]
  · intro hlt
    simp [budgetRuleTarget, hs, hlt]
  · refine ⟨?_, ?_, ?_, ?_, ?_⟩ <;> with_unfolding_all decide

/-- Witness for C7: the Quarterly rule evaluated in April 2024. -/
theorem budget_rule_due_spec_witness :
    (budgetRuleTarget ⟨2024, 4, 1⟩
      ⟨"Savings", 500, "Quarterly", some ⟨2024, 1, 1⟩, true, none⟩).isSome := by
  have h := (budget_rule_due_spec ⟨2024, 4, 1⟩
    ⟨"Savings", 500, "Quarterly", some ⟨2024, 1, 1⟩, true, none⟩ ⟨2024, 1, 1⟩ rfl).1
    rfl (by decide)
  exact (h.2.2.1 rfl).mpr (by decide)


/-! ## C9: date handling in balance aggregation -/

/-- C9 counterexample: a transaction with a missing/unparsable date is
included (as of today) by `_compute_account_balances` but dropped by
`_get_live_balances`, so it is not included in every live-balance
computation. -/
theorem balance_missing_date_counterexample :
    computeAccountBalances ⟨2024, 5, 1⟩
      [⟨"u", none, 100, "income", "A", "Salary", "Boss", "pay"⟩] "A" = 100 ∧
    getLiveBalances ⟨2024, 5, 1⟩
      [⟨"u", none, 100, "income", "A", "Salary", "Boss", "pay"⟩] "A" = 0 := by
  with_unfolding_all decide

/-- C9 amended: in `_compute_account_balances` a transaction with a
missing/unparsable date is treated as occurring today (so it is included
under the today cutoff and never in a future period), while
`_get_live_balances` drops such transactions; both computations filter to
the requested account and to dates at or before the cutoff before summing
the classifier. -/
theorem balance_date_handling (today : Date) (txs : List TxRec) (t : TxRec)
    (acct : String) :
    (t.date = none → computeAccountBalances today (t :: txs) acct =
      (if t.account = acct then getSignedAmount t.type t.amount else 0) +
        computeAccountBalances today txs acct) ∧
    (t.date = none → getLiveBalances today (t :: txs) acct =
      getLiveBalances today txs acct) ∧
    (∀ d, t.date = some d → dateLeB d today = false →
      computeAccountBalances today (t :: txs) acct =
        computeAccountBalances today txs acct ∧
      getLiveBalances today (t :: txs) acct = getLiveBalances today txs acct) ∧
    (t.account ≠ acct →
      computeAccountBalances today (t :: txs) acct =
        computeAccountBalances today txs acct ∧
      getLiveBalances today (t :: txs) acct = getLiveBalances today txs acct) := by
  refine ⟨?_, ?_, ?_, ?_⟩
  · intro hd
    by_cases hacc : t.account = acct <;>
      simp [computeAccountBalances, List.filter_cons, hd, dateLeB_refl, hacc]
  · intro hd
    simp [getLiveBalances, List.filter_cons, hd]
  · intro d hd hfut
    constructor <;>
      simp [computeAccountBalances, getLiveBalances, List.filter_cons, hd, hfut]
  · intro hacc
    constructor
    · simp only [computeAccountBalances, List.filter_cons]
      split_ifs with h
      · simp [List.filter_cons, hacc]
      · rfl
    · simp only [getLiveBalances, List.filter_cons]
      split_ifs with h
      · simp [List.filter_cons, hacc]
      · rfl

/-- Witness for C9 (amended) at a concrete missing-date transaction. -/
theorem balance_date_handling_witness :
    getLiveBalances ⟨2024, 5, 1⟩
      [⟨"u", none, 100, "income", "A", "Salary", "Boss", "pay"⟩] "A" =
    getLiveBalances ⟨2024, 5, 1⟩ [] "A" :=
  (balance_date_handling ⟨2024, 5, 1⟩ []
    ⟨"u", none, 100, "income", "A", "Salary", "Boss", "pay"⟩ "A").2.1 rfl

/-! ## C8: stored signs of engine-written records -/

/-- C8 counterexample: executing a non-empty one-period schedule writes
ledger records with negative stored amounts (the loan opening balance and
the interest/fee/principal expense rows), so not every engine-written
record stores a non-negative amount. -/
theorem stored_amounts_counterexample :
    ∃ t ∈ generateLoanTransactions "u" "Huslån" "Brukskonto" 1000 true
      ⟨2025, 1, 1⟩ 6
      [⟨1, ⟨2025, 2, 1⟩, 1000, 10, 5, 0, 90, 0, 0, 100, 910, "Active"⟩],
      t.amount < 0 := by
  with_unfolding_all decide

/-- C8 amended: the dialog writes nothing at all on an empty schedule;
settlement records are written with non-negative amounts, but the
amortization-execution postings pre-apply the sign at write time: expense
rows are stored negative, the loan-side principal-reduction income row
positive, and the opening balance as the negated loan balance. -/
theorem stored_amounts_spec (uid loanName payFrom : String) (balance : ℚ)
    (initBalance : Bool) (d0 : Date) (n : ℕ) (sched : List Period) :
    (generateLoanTransactions uid loanName payFrom balance initBalance
        d0 n [] = []) ∧
    (∀ t ∈ generateLoanTransactions uid loanName payFrom balance initBalance
        d0 n sched,
      (t.type = "expense" → t.amount < 0) ∧
      (t.type = "income" → 0 < t.amount) ∧
      (t.type = "opening balance" → t.amount = -balance)) ∧
    (∀ (uid2 selected : String) (accounts : List Account) (dv : Option Date)
        (L L2 : List TxRec),
      upsertSettlementTransfer uid2 accounts selected dv L = some L2 →
      ∀ t ∈ L2, t ∈ L ∨ 0 ≤ t.amount) := by
  refine ⟨rfl, ?_, ?_⟩
  · intro t ht
    unfold generateLoanTransactions at ht
    split at ht
    · simp at ht
    · simp only [List.mem_append] at ht
      rcases ht with ht | ht
      · rcases initBalance with _ | _ <;> simp at ht
        subst ht
        refine ⟨?_, ?_, ?_⟩ <;> intro hty <;> simp_all
      · simp only [List.mem_flatMap, List.mem_append] at ht
        obtain ⟨p, hp, hmem⟩ := ht
        rcases hmem with (hm | hm) | hm
        · split_ifs at hm with hi
          · simp at hm
            subst hm
            refine ⟨?_, ?_, ?_⟩ <;> intro hty <;> simp_all
          · simp at hm
        · split_ifs at hm with hfe
          · simp at hm
            subst hm
            refine ⟨?_, ?_, ?_⟩ <;> intro hty <;> simp_all
          · simp at hm
        · split_ifs at hm with hr
          · simp at hm
            rcases hm with hm | hm <;>
              · subst hm
                refine ⟨?_, ?_, ?_⟩ <;> intro hty <;> simp_all <;> linarith
          · simp at hm
  · intro uid2 selected accounts dv L L2 hup t ht
    rcases dv with _ | td
    · unfold upsertSettlementTransfer at hup
      split at hup
      · injection hup with h
        subst h
        exact Or.inl ht
      · simp only [] at hup
        split_ifs at hup <;>
          · injection hup with h
            subst h
            exact Or.inl ht
    · unfold upsertSettlementTransfer at hup
      split at hup
      · injection hup with h
        subst h
        exact Or.inl ht
      · simp only [] at hup
        split_ifs at hup with h1 h2
        · injection hup with h
          subst h
          exact Or.inl ht
        · split at hup
          · cases hup
          · injection hup with h
            subst h
            exact Or.inl ht
        · split at hup
          · cases hup
          · split_ifs at hup with h3
            · injection hup with h
              subst h
              rw [List.mem_append] at ht
              rcases ht with ht | ht
              · exact Or.inl ht
              · right
                simp at ht
                rcases ht with ht | ht <;> rw [ht] <;>
                  exact settlementAmount_nonneg _ _ _
            · injection hup with h
              subst h
              rw [List.mem_map] at ht
              obtain ⟨x, hx, hxt⟩ := ht
              split_ifs at hxt with hm
              · right
                rw [← hxt]
                simpa using settlementAmount_nonneg _ _ _
              · left
                rwa [← hxt]

set_option maxRecDepth 4000 in
/-- Witness for C8 (amended): the opening-balance record of a concrete
one-period execution stores the negated balance. -/
theorem stored_amounts_spec_witness :
    (⟨"u", some ⟨2025, 1, 1⟩, -1000, "opening balance", "Huslån",
      "Opening Balance", "System", "Initial Loan Balance"⟩ : TxRec).amount =
      -1000 := by
  have h := (stored_amounts_spec "u" "Huslån" "Brukskonto" 1000 true
    ⟨2025, 1, 1⟩ 6
    [⟨1, ⟨2025, 2, 1⟩, 1000, 10, 5, 0, 90, 0, 0, 100, 910, "Active"⟩]).2.1
    ⟨"u", some ⟨2025, 1, 1⟩, -1000, "opening balance", "Huslån",
      "Opening Balance", "System", "Initial Loan Balance"⟩
    (by with_unfolding_all decide)
  exact h.2.2 rfl


/-! ## C2: settlement reconciliation idempotence -/

lemma map_update_id (f : TxRec → TxRec) (l : List TxRec) (h : ∀ x ∈ l, f x = x) :
    l.map f = l := by
  induction l with
  | nil => rfl
  | cons a t ih =>
    simp only [List.map_cons, h a (List.mem_cons_self a t)]
    rw [ih (fun x hx => h x (List.mem_cons_of_mem a hx))]

lemma replaceDayChecked_eq (d : Date) (k : ℕ) (h1 : 1 ≤ k)
    (h2 : k ≤ daysInMonth d.year d.month) :
    replaceDayChecked d k = some (replaceDay d k) := by
  unfold replaceDayChecked replaceDay
  rw [if_pos ⟨h1, h2⟩]

lemma upsert_insert_case (uid selected : String) (accounts : List Account)
    (acc : Account) (td : Date) (L : List TxRec)
    (hfind : accounts.find? (fun a => decide (a.name = selected)) = some acc)
    (htype : pyStrip acc.account_type = "Credit Card")
    (hday : 1 ≤ resolveDueDay acc.credit_due_day ∧
      resolveDueDay acc.credit_due_day ≤
        daysInMonth (addMonths td 1).year (addMonths td 1).month)
    (hne : L.isEmpty = false)
    (hfilter : L.filter (existingMask uid selected
      (replaceDay (addMonths td 1) (resolveDueDay acc.credit_due_day))) = []) :
    upsertSettlementTransfer uid accounts selected (some td) L =
      some (L ++
        [⟨uid, some (replaceDay (addMonths td 1) (resolveDueDay acc.credit_due_day)),
            settlementAmount selected td L, "expense",
            resolveSource acc.credit_source_account, "Transfer",
            "Settlement: " ++ selected, "Auto-settle for " ++ selected⟩,
          ⟨uid, some (replaceDay (addMonths td 1) (resolveDueDay acc.credit_due_day)),
            settlementAmount selected td L, "income", selected, "Transfer",
            "From " ++ resolveSource acc.credit_source_account,
            "Auto-settle for " ++ selected⟩]) := by
  unfold upsertSettlementTransfer
  rw [hfind]
  dsimp only []
  rw [if_neg (by simp [htype])]
  rw [replaceDayChecked_eq _ _ hday.1 hday.2]
  simp only [hne, hfilter, Bool.false_eq_true, if_false, List.isEmpty_nil, if_true]

lemma upsert_update_case (uid selected : String) (accounts : List Account)
    (acc : Account) (td : Date) (L : List TxRec)
    (hfind : accounts.find? (fun a => decide (a.name = selected)) = some acc)
    (htype : pyStrip acc.account_type = "Credit Card")
    (hday : 1 ≤ resolveDueDay acc.credit_due_day ∧
      resolveDueDay acc.credit_due_day ≤
        daysInMonth (addMonths td 1).year (addMonths td 1).month)
    (hne : L.isEmpty = false)
    (hfilter : (L.filter (existingMask uid selected
      (replaceDay (addMonths td 1) (resolveDueDay acc.credit_due_day)))).isEmpty = false) :
    upsertSettlementTransfer uid accounts selected (some td) L =
      some (L.map (fun t =>
        if updateMask uid selected
            (replaceDay (addMonths td 1) (resolveDueDay acc.credit_due_day)) t
        then { t with amount := settlementAmount selected td L } else t)) := by
  unfold upsertSettlementTransfer
  rw [hfind]
  dsimp only []
  rw [if_neg (by simp [htype])]
  rw [replaceDayChecked_eq _ _ hday.1 hday.2]
  simp only [hne, hfilter, Bool.false_eq_true, if_false]

/-- C2 counterexample: a card account with `credit_due_day = 31` and a
January trigger puts the settlement date in February, so
`(trans_date + relativedelta(months=1)).replace(day=31)` raises
`ValueError`; the reconciler crashes before touching the ledger and writes
no settlement pair at all, so reconciliation is not a successful
idempotent upsert for every card account and triggering transaction. -/
theorem settlement_upsert_counterexample :
    upsertSettlementTransfer "u"
      [⟨"Card", "Credit Card", some 31, some "Checking"⟩] "Card"
      (some ⟨2024, 1, 15⟩)
      [⟨"u", some ⟨2024, 1, 15⟩, 500, "expense", "Card", "Shopping", "Store",
        "stuff"⟩] = none ∧
    ([⟨"u", some ⟨2024, 1, 15⟩, 500, "expense", "Card", "Shopping", "Store",
        "stuff"⟩] : List TxRec).countP (fun t => hasAutoSettle t.description)
      = 0 := by
  constructor
  · with_unfolding_all decide
  · with_unfolding_all decide

/-- C2 amended: with a clean ledger (no auto-settlement rows yet) and a
due day that is in range for the settlement month (so that
`date.replace(day=due_day)` does not raise), running the settlement upsert
twice with the same triggering transaction date succeeds and leaves
exactly one settlement pair for the settlement date: one row on the card
account and one on the funding account, both carrying the computed
settlement amount; the second call updates in place and inserts nothing. -/
theorem settlement_upsert_idempotent (uid selected : String)
    (accounts : List Account) (acc : Account) (td : Date) (L : List TxRec)
    (hfind : accounts.find? (fun a => decide (a.name = selected)) = some acc)
    (htype : pyStrip acc.account_type = "Credit Card")
    (hday : 1 ≤ resolveDueDay acc.credit_due_day ∧
      resolveDueDay acc.credit_due_day ≤
        daysInMonth (addMonths td 1).year (addMonths td 1).month)
    (hne : L ≠ [])
    (hfresh : ∀ t ∈ L, hasAutoSettle t.description = false)
    (hsrc : resolveSource acc.credit_source_account ≠ selected) :
    ∃ L2,
    ((upsertSettlementTransfer uid accounts selected (some td) L).bind
      (upsertSettlementTransfer uid accounts selected (some td)) = some L2) ∧
    (L2.countP
      (fun t => decide (t.account = selected) &&
        decide (t.date = some (replaceDay (addMonths td 1)
          (resolveDueDay acc.credit_due_day))) && hasAutoSettle t.description) = 1) ∧
    (L2.countP
      (fun t => decide (t.account = resolveSource acc.credit_source_account) &&
        decide (t.date = some (replaceDay (addMonths td 1)
          (resolveDueDay acc.credit_due_day))) && hasAutoSettle t.description) = 1) ∧
    (∀ t ∈ L2,
      t.account = selected →
      t.date = some (replaceDay (addMonths td 1) (resolveDueDay acc.credit_due_day)) →
      hasAutoSettle t.description = true →
      t.amount = settlementAmount selected td L ∧ t.type = "income") ∧
    (∀ t ∈ L2,
      t.account = resolveSource acc.credit_source_account →
      t.date = some (replaceDay (addMonths td 1) (resolveDueDay acc.credit_due_day)) →
      hasAutoSettle t.description = true →
      t.amount = settlementAmount selected td L ∧ t.type = "expense") := by
  set sd := replaceDay (addMonths td 1) (resolveDueDay acc.credit_due_day) with hsd
  set src := resolveSource acc.credit_source_account with hsrcdef
  set amt := settlementAmount selected td L with hamt
  set o : TxRec := ⟨uid, some sd, amt, "expense", src, "Transfer",
    "Settlement: " ++ selected, "Auto-settle for " ++ selected⟩ with ho
  set i : TxRec := ⟨uid, some sd, amt, "income", selected, "Transfer",
    "From " ++ src, "Auto-settle for " ++ selected⟩ with hi
  have hEmpty : L.isEmpty = false := by
    cases L with
    | nil => exact absurd rfl hne
    | cons a t => rfl
  have hFil : L.filter (existingMask uid selected sd) = [] := by
    rw [List.filter_eq_nil_iff]
    intro t ht
    simp [existingMask, hfresh t ht]
  have h1 : upsertSettlementTransfer uid accounts selected (some td) L =
      some (L ++ [o, i]) :=
    upsert_insert_case uid selected accounts acc td L hfind htype hday hEmpty hFil
  have hEmpty1 : (L ++ [o, i]).isEmpty = false := by
    cases L with
    | nil => rfl
    | cons a t => rfl
  have hMaskO : existingMask uid selected sd o = false := by
    rw [ho]
    simp [existingMask, hasAutoSettle_of_tag, hsrc]
  have hMaskI : existingMask uid selected sd i = true := by
    rw [hi]
    simp [existingMask, hasAutoSettle_of_tag]
  have hFil1 : ((L ++ [o, i]).filter (existingMask uid selected sd)).isEmpty = false := by
    rw [List.filter_append, hFil, List.nil_append]
    simp [List.filter_cons, hMaskO, hMaskI]
  have hNet1 : settlementNet selected td (L ++ [o, i]) = settlementNet selected td L := by
    unfold settlementNet
    rw [List.filter_append]
    have hmo : monthMask selected td o = false := by
      rw [ho]
      simp [monthMask, hasAutoSettle_of_tag]
    have hmi : monthMask selected td i = false := by
      rw [hi]
      simp [monthMask, hasAutoSettle_of_tag]
    simp [List.filter_cons, hmo, hmi]
  have hAmt1 : settlementAmount selected td (L ++ [o, i]) = amt := by
    rw [hamt]
    unfold settlementAmount
    rw [hNet1]
  have hUpdL : ∀ x ∈ L, updateMask uid selected sd x = false := by
    intro x hx
    simp [updateMask, hfresh x hx]
  have hUpdO : updateMask uid selected sd o = false := by
    rw [ho]
    simp [updateMask, hasAutoSettle_of_tag, hsrc]
  have hUpdI : updateMask uid selected sd i = true := by
    rw [hi]
    simp [updateMask, hasAutoSettle_of_tag]
  have h2 : upsertSettlementTransfer uid accounts selected (some td) (L ++ [o, i]) =
      some (L ++ [o, i]) := by
    rw [upsert_update_case uid selected accounts acc td (L ++ [o, i]) hfind htype
      hday hEmpty1 hFil1]
    rw [← hsd, hAmt1]
    congr 1
    apply map_update_id
    intro x hx
    rcases List.mem_append.mp hx with hxL | hxN
    · simp [hUpdL x hxL]
    · simp only [List.mem_cons, List.mem_singleton, List.not_mem_nil, or_false] at hxN
      rcases hxN with rfl | rfl
      · simp [hUpdO]
      · rw [if_pos hUpdI]
  refine ⟨L ++ [o, i], ?_, ?_, ?_, ?_, ?_⟩
  · rw [h1]
    exact h2
  · rw [List.countP_append]
    have hz : L.countP (fun t => decide (t.account = selected) &&
        decide (t.date = some sd) && hasAutoSettle t.description) = 0 := by
      rw [List.countP_eq_zero]
      intro t ht
      simp [hfresh t ht]
    rw [hz]
    rw [List.countP_cons_of_neg _ _ (by rw [ho]; simp [hasAutoSettle_of_tag, hsrc])]
    rw [List.countP_cons_of_pos _ _ (by rw [hi]; simp [hasAutoSettle_of_tag])]
    rfl
  · rw [List.countP_append]
    have hz : L.countP (fun t => decide (t.account = src) &&
        decide (t.date = some sd) && hasAutoSettle t.description) = 0 := by
      rw [List.countP_eq_zero]
      intro t ht
      simp [hfresh t ht]
    rw [hz]
    rw [List.countP_cons_of_pos _ _ (by rw [ho]; simp [hasAutoSettle_of_tag])]
    rw [List.countP_cons_of_neg _ _
      (by rw [hi]; simp [hasAutoSettle_of_tag, Ne.symm hsrc])]
    rfl
  · intro t ht hacc hdate hauto
    rcases List.mem_append.mp ht with hL | hN
    · rw [hfresh t hL] at hauto
      cases hauto
    · simp only [List.mem_cons, List.mem_singleton, List.not_mem_nil, or_false] at hN
      rcases hN with rfl | rfl
      · rw [ho] at hacc
        exact absurd hacc hsrc
      · exact ⟨rfl, rfl⟩
  · intro t ht hacc hdate hauto
    rcases List.mem_append.mp ht with hL | hN
    · rw [hfresh t hL] at hauto
      cases hauto
    · simp only [List.mem_cons, List.mem_singleton, List.not_mem_nil, or_false] at hN
      rcases hN with rfl | rfl
      · exact ⟨rfl, rfl⟩
      · rw [hi] at hacc
        exact absurd hacc.symm hsrc


/-- Witness for C2 (amended) at a concrete card account, trigger and
ledger with an in-range due day: the double upsert succeeds and leaves
exactly one card-side settlement row. -/
theorem settlement_upsert_idempotent_witness :
    ∃ L2,
      ((upsertSettlementTransfer "u"
          [⟨"Card", "Credit Card", some 20, some "Checking"⟩] "Card"
          (some ⟨2024, 3, 5⟩)
          [⟨"u", some ⟨2024, 3, 5⟩, 500, "expense", "Card", "Shopping", "Store",
            "stuff"⟩]).bind
        (upsertSettlementTransfer "u"
          [⟨"Card", "Credit Card", some 20, some "Checking"⟩] "Card"
          (some ⟨2024, 3, 5⟩)) = some L2) ∧
      (L2.countP
        (fun t => decide (t.account = "Card") &&
          decide (t.date = some (replaceDay (addMonths ⟨2024, 3, 5⟩ 1)
            (resolveDueDay (some 20)))) && hasAutoSettle t.description) = 1) := by
  obtain ⟨L2, hb, hc, _, _, _⟩ := settlement_upsert_idempotent "u" "Card"
    [⟨"Card", "Credit Card", some 20, some "Checking"⟩]
    ⟨"Card", "Credit Card", some 20, some "Checking"⟩ ⟨2024, 3, 5⟩
    [⟨"u", some ⟨2024, 3, 5⟩, 500, "expense", "Card", "Shopping", "Store", "stuff"⟩]
    (by decide) (by decide) (by decide) (by decide) (by decide) (by decide)
  exact ⟨L2, hb, hc⟩


/-! ## Schedule step lemmas -/

lemma clamp_pair_fst (bal x y z : ℚ) :
    (if x > bal then (bal, y) else (x, z)).1 = min bal x := by
  split_ifs with h
  · exact (min_eq_left h.le).symm
  · exact (min_eq_right (not_lt.mp h)).symm

lemma clamp_pair_snd (bal x td0 : ℚ) :
    (if x > bal then (bal, td0 - (x - bal)) else (x, td0)).2 =
      td0 - max 0 (x - bal) := by
  split_ifs with h
  · rw [max_eq_right (sub_nonneg.mpr h.le)]
  · rw [max_eq_left (sub_nonpos.mpr (not_lt.mp h)), sub_zero]

lemma clamp1_snd (bal interest : ℚ) (pr : ℚ × ℚ) (h : pr.2 = interest + pr.1) :
    (if pr.1 > bal then (bal, interest + bal) else pr).2 =
      interest + (if pr.1 > bal then (bal, interest + bal) else pr).1 := by
  split_ifs with h1 <;> simp [h]

lemma scheduleStep_startBalance (cfg : LoanCfg) (terms : List TermsChange)
    (s : LoopState) : (scheduleStep cfg terms s).1.startBalance = s.balance := rfl

lemma scheduleStep_month (cfg : LoanCfg) (terms : List TermsChange)
    (s : LoopState) : (scheduleStep cfg terms s).1.month = s.monthIdx := rfl

lemma scheduleStep_extra (cfg : LoanCfg) (terms : List TermsChange)
    (s : LoopState) : (scheduleStep cfg terms s).1.extra =
      extrasFor cfg.extraPayments s.date.year s.date.month := rfl

lemma scheduleStep_endBalance (cfg : LoanCfg) (terms : List TermsChange)
    (s : LoopState) : (scheduleStep cfg terms s).1.endBalance =
      max 0 (scheduleStep cfg terms s).2.balance := rfl

lemma scheduleStep_next_balance (cfg : LoanCfg) (terms : List TermsChange)
    (s : LoopState) :
    (scheduleStep cfg terms s).2.balance =
      s.balance - min s.balance
        ((scheduleStep cfg terms s).1.principal + (scheduleStep cfg terms s).1.extra) := by
  unfold scheduleStep
  simp only [clamp_pair_fst]

lemma scheduleStep_next_nonneg (cfg : LoanCfg) (terms : List TermsChange)
    (s : LoopState) : 0 ≤ (scheduleStep cfg terms s).2.balance := by
  rw [scheduleStep_next_balance]
  have h := min_le_left s.balance
    ((scheduleStep cfg terms s).1.principal + (scheduleStep cfg terms s).1.extra)
  linarith

lemma scheduleStep_end_eq (cfg : LoanCfg) (terms : List TermsChange)
    (s : LoopState) :
    (scheduleStep cfg terms s).1.endBalance = (scheduleStep cfg terms s).2.balance := by
  rw [scheduleStep_endBalance]
  exact max_eq_right (scheduleStep_next_nonneg cfg terms s)

lemma scheduleStep_totalPayment (cfg : LoanCfg) (terms : List TermsChange)
    (s : LoopState) :
    (scheduleStep cfg terms s).1.totalPayment =
      (scheduleStep cfg terms s).1.interest + (scheduleStep cfg terms s).1.principal +
      (scheduleStep cfg terms s).1.adminFee + (scheduleStep cfg terms s).1.extra -
      max 0 ((scheduleStep cfg terms s).1.principal +
        (scheduleStep cfg terms s).1.extra - s.balance) := by
  unfold scheduleStep
  simp only [clamp_pair_snd, clamp_pair_fst]
  rw [clamp1_snd]
  case h => split_ifs <;> simp only [] <;> ring


lemma remMonths_cast_pos (k : ℤ) : (0 : ℚ) < ((max 1 k : ℤ) : ℚ) := by
  have h1 : (1 : ℤ) ≤ max 1 k := le_max_left 1 k
  exact_mod_cast lt_of_lt_of_le Int.zero_lt_one h1

lemma recalculatePayment_serial_nonneg (cfg : LoanCfg) (bal rate : ℚ) (d : Date)
    (hser : cfg.loanType = "Serial") (hb : 0 ≤ bal) (hp : 0 ≤ cfg.targetPayment) :
    0 ≤ recalculatePayment cfg bal rate d := by
  unfold recalculatePayment
  cases htd : cfg.targetDate with
  | none => exact hp
  | some tdt =>
    dsimp only []
    by_cases h1 : cfg.mode = "date"
    · rw [if_pos h1, if_pos hser]
      exact div_nonneg hb (le_of_lt (remMonths_cast_pos _))
    · rw [if_neg h1]
      exact hp

lemma extrasFor_nonneg (l : List (Date × ℚ)) (y m : ℕ)
    (h : ∀ e ∈ l, 0 ≤ e.2) : 0 ≤ extrasFor l y m := by
  unfold extrasFor
  apply List.sum_nonneg
  intro x hx
  simp only [List.mem_map] at hx
  obtain ⟨e, he, rfl⟩ := hx
  exact h e (List.mem_of_mem_filter he)


lemma scheduleStep_fixedPrincipal_nonneg (cfg : LoanCfg) (terms : List TermsChange)
    (s : LoopState) (hfp : 0 ≤ s.fixedPrincipal) (hbal : 0 ≤ s.balance)
    (hp : 0 ≤ cfg.targetPayment) :
    0 ≤ (scheduleStep cfg terms s).2.fixedPrincipal := by
  unfold scheduleStep
  dsimp only []
  split_ifs with h1 h2 h3
  · exact recalculatePayment_serial_nonneg cfg s.balance _ s.date h2 hbal hp
  · exact hfp
  · exact hfp
  · exact hfp

lemma scheduleStep_principal_nonneg (cfg : LoanCfg) (terms : List TermsChange)
    (s : LoopState) (hfp : 0 ≤ s.fixedPrincipal) (hbal : 0 ≤ s.balance)
    (hp : 0 ≤ cfg.targetPayment) :
    0 ≤ (scheduleStep cfg terms s).1.principal := by
  unfold scheduleStep
  dsimp only []
  split_ifs <;>
    first
      | exact hbal
      | exact hfp
      | linarith
      | exact recalculatePayment_serial_nonneg cfg s.balance _ s.date
          (by assumption) hbal hp

lemma scheduleStep_end_le_start (cfg : LoanCfg) (terms : List TermsChange)
    (s : LoopState) (hbal : 0 ≤ s.balance)
    (hprin : 0 ≤ (scheduleStep cfg terms s).1.principal)
    (hext : 0 ≤ (scheduleStep cfg terms s).1.extra) :
    (scheduleStep cfg terms s).1.endBalance ≤ (scheduleStep cfg terms s).1.startBalance := by
  rw [scheduleStep_endBalance, scheduleStep_next_balance, scheduleStep_startBalance]
  apply max_le hbal
  have hmin : 0 ≤ min s.balance
      ((scheduleStep cfg terms s).1.principal + (scheduleStep cfg terms s).1.extra) :=
    le_min hbal (by linarith)
  linarith

/-! ## Loop lemmas -/

lemma genLoop_length_le (cfg : LoanCfg) (terms : List TermsChange) :
    ∀ (fuel : ℕ) (s : LoopState), (genLoop cfg terms fuel s).length ≤ fuel := by
  intro fuel
  induction fuel with
  | zero => intro s; simp [genLoop]
  | succ n ih =>
    intro s
    simp only [genLoop]
    split_ifs
    · simpa using ih _
    · simp

lemma genLoop_eq_nil_iff (cfg : LoanCfg) (terms : List TermsChange)
    (fuel : ℕ) (s : LoopState) :
    genLoop cfg terms fuel s = [] ↔ (fuel = 0 ∨ ¬(1 < s.balance)) := by
  cases fuel with
  | zero => simp [genLoop]
  | succ n =>
    simp only [genLoop]
    split_ifs with h
    · simp [h]
    · simp [h]

lemma genLoop_mem_spec (cfg : LoanCfg) (terms : List TermsChange)
    (P : LoopState → Prop)
    (hstep : ∀ s, 1 < s.balance → P s → P (scheduleStep cfg terms s).2) :
    ∀ (fuel : ℕ) (s : LoopState), P s → ∀ p ∈ genLoop cfg terms fuel s,
      ∃ s₀, P s₀ ∧ 1 < s₀.balance ∧ p = (scheduleStep cfg terms s₀).1 := by
  intro fuel
  induction fuel with
  | zero => intro s hP p hp; simp [genLoop] at hp
  | succ n ih =>
    intro s hP p hp
    simp only [genLoop] at hp
    split_ifs at hp with hb
    · rcases List.mem_cons.mp hp with rfl | hp2
      · exact ⟨s, hP, hb, rfl⟩
      · exact ih _ (hstep s hb hP) p hp2
    · simp at hp

lemma genLoop_dropLast_gt (cfg : LoanCfg) (terms : List TermsChange) :
    ∀ (fuel : ℕ) (s : LoopState),
      ∀ p ∈ (genLoop cfg terms fuel s).dropLast, 1 < p.endBalance := by
  intro fuel
  induction fuel with
  | zero => intro s p hp; simp [genLoop] at hp
  | succ n ih =>
    intro s p hp
    simp only [genLoop] at hp
    split_ifs at hp with hb
    · rcases hrest : genLoop cfg terms n (scheduleStep cfg terms s).2 with _ | ⟨q, tail⟩
      · rw [hrest] at hp
        simp at hp
      · rw [hrest] at hp
        rw [List.dropLast_cons₂] at hp
        rcases List.mem_cons.mp hp with rfl | hp2
        · have hne : genLoop cfg terms n (scheduleStep cfg terms s).2 ≠ [] := by
            rw [hrest]; exact List.cons_ne_nil q tail
          have hb2 : 1 < (scheduleStep cfg terms s).2.balance := by
            rcases (genLoop_eq_nil_iff cfg terms n (scheduleStep cfg terms s).2).not.mp
              hne with h
            push_neg at h
            exact h.2
          rw [scheduleStep_end_eq]
          exact hb2
        · have := ih (scheduleStep cfg terms s).2 p (by rw [hrest]; exact hp2)
          exact this
    · simp at hp

lemma genLoop_full_length (cfg : LoanCfg) (terms : List TermsChange) :
    ∀ (fuel : ℕ) (s : LoopState), 1 < s.balance →
      (∀ p ∈ genLoop cfg terms fuel s, 1 < p.endBalance) →
      (genLoop cfg terms fuel s).length = fuel := by
  intro fuel
  induction fuel with
  | zero => intro s hb hall; simp [genLoop]
  | succ n ih =>
    intro s hb hall
    simp only [genLoop, if_pos hb, List.length_cons]
    have hhead : 1 < (scheduleStep cfg terms s).1.endBalance := by
      apply hall
      simp only [genLoop, if_pos hb]
      exact List.mem_cons_self _ _
    rw [scheduleStep_end_eq] at hhead
    have := ih (scheduleStep cfg terms s).2 hhead (fun p hp => by
      apply hall
      simp only [genLoop, if_pos hb]
      exact List.mem_cons_of_mem _ hp)
    omega

lemma genLoop_sum_getLast (cfg : LoanCfg) (terms : List TermsChange) :
    ∀ (fuel : ℕ) (s : LoopState) (q : Period),
      (genLoop cfg terms fuel s).getLast? = some q →
      ((genLoop cfg terms fuel s).map (fun p => p.startBalance - p.endBalance)).sum =
        s.balance - q.endBalance := by
  intro fuel
  induction fuel with
  | zero => intro s q h; simp [genLoop] at h
  | succ n ih =>
    intro s q h
    simp only [genLoop] at h ⊢
    split_ifs at h ⊢ with hb
    · rcases hrest : genLoop cfg terms n (scheduleStep cfg terms s).2 with _ | ⟨r, tail⟩
      · rw [hrest] at h
        simp only [List.getLast?_singleton, Option.some.injEq] at h
        subst h
        simp [scheduleStep_startBalance]
      · rw [hrest, List.getLast?_cons_cons] at h
        have hsum := ih (scheduleStep cfg terms s).2 q (by rw [hrest]; exact h)
        rw [hrest] at hsum
        simp only [List.map_cons, List.sum_cons] at hsum ⊢
        rw [scheduleStep_startBalance, scheduleStep_end_eq]
        linarith
    · simp at h


lemma generateSchedule_eq (cfg : LoanCfg) :
    generateSchedule cfg =
      genLoop cfg (cfg.termsHistory.mergeSort (fun a b => dateLeB a.date b.date)) 720
        { balance := cfg.balance, rate := cfg.rate, fee := cfg.adminFee,
          fixedPrincipal := if cfg.loanType = "Serial"
            then recalculatePayment cfg cfg.balance cfg.rate cfg.startDate else 0,
          annuityPayment := if cfg.loanType = "Annuity"
            then recalculatePayment cfg cfg.balance cfg.rate cfg.startDate else 0,
          date := replaceDay (if cfg.startDate.day > cfg.paymentDay
            then addMonths cfg.startDate 1 else cfg.startDate) cfg.paymentDay,
          monthIdx := 1 } := rfl

/-! ## C4: termination and the 720-period cap -/

/-- C4: for every input the generator terminates with at most 720
periods, every non-final period has an end balance above the 1.0 payoff
threshold (it stops as soon as the balance falls to 1.0 or below), and a
configuration that never reaches payoff fills all 720 periods with the
final period still carrying a positive end balance. -/
theorem schedule_termination_spec (cfg : LoanCfg) :
    (generateSchedule cfg).length ≤ 720 ∧
    (∀ p ∈ (generateSchedule cfg).dropLast, 1 < p.endBalance) ∧
    (1 < cfg.balance → (∀ p ∈ generateSchedule cfg, 1 < p.endBalance) →
      (generateSchedule cfg).length = 720 ∧
      ∀ q, (generateSchedule cfg).getLast? = some q → 0 < q.endBalance) := by
  rw [generateSchedule_eq]
  refine ⟨genLoop_length_le _ _ _ _, genLoop_dropLast_gt _ _ _ _, ?_⟩
  intro hb hall
  refine ⟨genLoop_full_length _ _ _ _ hb hall, ?_⟩
  intro q hq
  have hmem : q ∈ genLoop cfg
      (cfg.termsHistory.mergeSort (fun a b => dateLeB a.date b.date)) 720
      { balance := cfg.balance, rate := cfg.rate, fee := cfg.adminFee,
        fixedPrincipal := if cfg.loanType = "Serial"
          then recalculatePayment cfg cfg.balance cfg.rate cfg.startDate else 0,
        annuityPayment := if cfg.loanType = "Annuity"
          then recalculatePayment cfg cfg.balance cfg.rate cfg.startDate else 0,
        date := replaceDay (if cfg.startDate.day > cfg.paymentDay
          then addMonths cfg.startDate 1 else cfg.startDate) cfg.paymentDay,
        monthIdx := 1 } := by
    obtain ⟨hne, rfl⟩ := List.mem_getLast?_eq_getLast hq
    exact List.getLast_mem hne
  have := hall q hmem
  linarith

/-! ## C3: clamping, payment consistency and conservation -/

/-- C3: in every generated schedule, each period reduces the balance by
the regular principal plus extra payment clamped to the starting balance,
the reported total payment refunds exactly the clamp excess, every end
balance is non-negative, and for a schedule that reaches exact payoff the
balance reductions sum to the opening balance. -/
theorem schedule_clamp_conservation (cfg : LoanCfg) :
    (∀ p ∈ generateSchedule cfg,
      p.startBalance - p.endBalance = min p.startBalance (p.principal + p.extra) ∧
      p.totalPayment = p.interest + p.principal + p.adminFee + p.extra -
        max 0 (p.principal + p.extra - p.startBalance) ∧
      0 ≤ p.endBalance) ∧
    (∀ q, (generateSchedule cfg).getLast? = some q → q.endBalance = 0 →
      ((generateSchedule cfg).map (fun p => p.startBalance - p.endBalance)).sum =
        cfg.balance) := by
  constructor
  · intro p hp
    rw [generateSchedule_eq] at hp
    obtain ⟨s₀, -, hb, rfl⟩ := genLoop_mem_spec cfg _ (fun _ => True)
      (fun _ _ _ => trivial) 720 _ trivial p hp
    refine ⟨?_, ?_, ?_⟩
    · rw [scheduleStep_startBalance, scheduleStep_end_eq, scheduleStep_next_balance]
      ring
    · rw [scheduleStep_startBalance]
      exact scheduleStep_totalPayment cfg _ s₀
    · rw [scheduleStep_endBalance]
      exact le_max_left _ _
  · intro q hlast hzero
    rw [generateSchedule_eq] at hlast ⊢
    have hsum := genLoop_sum_getLast cfg _ 720 _ q hlast
    rw [hzero, sub_zero] at hsum
    exact hsum

/-! ## C10: no negative amortization -/

/-- C10: for non-negative opening balance, configured payment and extra
payments, every period's end balance is at most its start balance — the
Annuity payment is silently raised to the accrued interest when smaller,
so interest is never capitalized into the balance. -/
theorem schedule_monotone_balance (cfg : LoanCfg) (hb : 0 ≤ cfg.balance)
    (hp : 0 ≤ cfg.targetPayment) (he : ∀ e ∈ cfg.extraPayments, 0 ≤ e.2) :
    ∀ p ∈ generateSchedule cfg, p.endBalance ≤ p.startBalance := by
  intro p hmem
  rw [generateSchedule_eq] at hmem
  have hP0 : 0 ≤ (if cfg.loanType = "Serial"
      then recalculatePayment cfg cfg.balance cfg.rate cfg.startDate else (0 : ℚ)) := by
    split_ifs with hser
    · exact recalculatePayment_serial_nonneg cfg cfg.balance cfg.rate cfg.startDate
        hser hb hp
    · exact le_refl 0
  obtain ⟨s₀, hPs, hb1, rfl⟩ := genLoop_mem_spec cfg _ (fun s => 0 ≤ s.fixedPrincipal)
    (fun s hs hPs => scheduleStep_fixedPrincipal_nonneg cfg _ s hPs (by linarith) hp)
    720 _ hP0 p hmem
  exact scheduleStep_end_le_start cfg _ s₀ (by linarith)
    (scheduleStep_principal_nonneg cfg _ s₀ hPs (by linarith) hp)
    (by rw [scheduleStep_extra]; exact extrasFor_nonneg _ _ _ he)


/-! ## C5: division safety -/

set_option maxRecDepth 4000 in
/-- C5: payment sizing never divides by zero: the annuity helper falls
back to straight-line division at rate zero, the target-date horizon is
clamped to a one-month minimum (so the Serial division reconstructs the
balance), and the concrete zero-rate fixed-payment scenario produces
exactly 12 periods with zero interest, principal 1000 and final end
balance 0. -/
theorem schedule_division_safety :
    (∀ (P : ℚ) (m : ℤ), 0 < m → calculateAnnuityPayment P 0 m = P / (m : ℚ)) ∧
    (∀ (cfg : LoanCfg) (bal rate : ℚ) (d tdt : Date), cfg.mode = "date" →
      cfg.targetDate = some tdt → cfg.loanType = "Serial" →
      recalculatePayment cfg bal rate d * ((max 1 (countMonths d tdt) : ℤ) : ℚ) = bal) ∧
    ((generateSchedule ⟨12000, 0, ⟨2024, 1, 1⟩, 1, "payment", "Annuity", 1000, none, 0,
        [], [], none, none⟩).length = 12 ∧
     (∀ p ∈ generateSchedule ⟨12000, 0, ⟨2024, 1, 1⟩, 1, "payment", "Annuity", 1000,
        none, 0, [], [], none, none⟩, p.interest = 0 ∧ p.principal = 1000) ∧
     ((generateSchedule ⟨12000, 0, ⟨2024, 1, 1⟩, 1, "payment", "Annuity", 1000, none, 0,
        [], [], none, none⟩).map Period.endBalance).getLast? = some 0) := by
  refine ⟨?_, ?_, ?_⟩
  · intro P m hm
    unfold calculateAnnuityPayment
    rw [if_neg (by omega), if_pos le_rfl]
  · intro cfg bal rate d tdt hmode htd hser
    unfold recalculatePayment
    rw [htd]
    dsimp only []
    rw [if_pos hmode, if_pos hser]
    exact div_mul_cancel₀ bal (ne_of_gt (remMonths_cast_pos _))
  · refine ⟨?_, ?_, ?_⟩ <;> with_unfolding_all decide

/-- Witness for C5 at concrete inputs for both fallbacks. -/
theorem schedule_division_safety_witness :
    calculateAnnuityPayment 100 0 4 = 100 / (4 : ℚ) ∧
    recalculatePayment ⟨500, 0, ⟨2024, 1, 1⟩, 1, "date", "Serial", 0,
        some ⟨2024, 3, 1⟩, 0, [], [], none, none⟩ 500 0 ⟨2024, 1, 1⟩ *
      ((max 1 (countMonths ⟨2024, 1, 1⟩ ⟨2024, 3, 1⟩) : ℤ) : ℚ) = 500 :=
  ⟨schedule_division_safety.1 100 4 (by norm_num),
   schedule_division_safety.2.1 ⟨500, 0, ⟨2024, 1, 1⟩, 1, "date", "Serial", 0,
     some ⟨2024, 3, 1⟩, 0, [], [], none, none⟩ 500 0 ⟨2024, 1, 1⟩ ⟨2024, 3, 1⟩
     rfl rfl rfl⟩


/-! ## C6: target-date round trip -/

set_option maxRecDepth 1600 in
/-- C6: for balance 100000 at 5% with a target date 24 months after the
start, the schedule in target-date mode uses the standard annuity payment
over the 24 remaining months and pays the loan off (final end balance 0,
in particular at most 1.0) in exactly 24 periods. -/
theorem schedule_target_date_roundtrip :
    recalculatePayment ⟨100000, 5, ⟨2024, 1, 1⟩, 1, "date", "Annuity", 0,
        some ⟨2026, 1, 1⟩, 0, [], [], none, none⟩ 100000 5 ⟨2024, 1, 1⟩ =
      calculateAnnuityPayment 100000 5 24 ∧
    (generateSchedule ⟨100000, 5, ⟨2024, 1, 1⟩, 1, "date", "Annuity", 0,
        some ⟨2026, 1, 1⟩, 0, [], [], none, none⟩).length = 24 ∧
    ((generateSchedule ⟨100000, 5, ⟨2024, 1, 1⟩, 1, "date", "Annuity", 0,
        some ⟨2026, 1, 1⟩, 0, [], [], none, none⟩).map Period.endBalance).getLast? =
      some 0 := by
  refine ⟨?_, ?_, ?_⟩
  · unfold recalculatePayment
    dsimp only []
    rw [if_pos rfl, if_neg (by decide), if_neg (by decide)]
    congr 1
  · with_unfolding_all decide
  · with_unfolding_all decide



lemma zeroPaymentStep (s : LoopState) (hbal : s.balance = 1000)
    (hann : s.annuityPayment = 0) :
    (scheduleStep ⟨1000, 0, ⟨2024, 1, 1⟩, 1, "payment", "Annuity", 0, none, 0, [], [],
        none, none⟩ [] s).2.balance = 1000 ∧
    (scheduleStep ⟨1000, 0, ⟨2024, 1, 1⟩, 1, "payment", "Annuity", 0, none, 0, [], [],
        none, none⟩ [] s).2.annuityPayment = 0 := by
  unfold scheduleStep
  simp +decide [activeTerms, extrasFor, hbal, hann]

lemma zeroPaymentSchedule_all_gt :
    ∀ p ∈ generateSchedule ⟨1000, 0, ⟨2024, 1, 1⟩, 1, "payment", "Annuity", 0, none, 0,
        [], [], none, none⟩, 1 < p.endBalance := by
  intro p hp
  rw [generateSchedule_eq] at hp
  dsimp only [] at hp
  rw [List.mergeSort_nil] at hp
  obtain ⟨s₀, hPs, hb1, rfl⟩ := genLoop_mem_spec
    ⟨1000, 0, ⟨2024, 1, 1⟩, 1, "payment", "Annuity", 0, none, 0, [], [], none, none⟩ []
    (fun s => s.balance = 1000 ∧ s.annuityPayment = 0)
    (fun s hs hP => zeroPaymentStep s hP.1 hP.2) 720 _ ⟨rfl, rfl⟩ p hp
  rw [scheduleStep_endBalance, (zeroPaymentStep s₀ hPs.1 hPs.2).1]
  norm_num

/-- Witness for C4: a zero-payment loan never reaches payoff and fills
all 720 periods. -/
theorem schedule_termination_spec_witness :
    (generateSchedule ⟨1000, 0, ⟨2024, 1, 1⟩, 1, "payment", "Annuity", 0, none, 0,
       [], [], none, none⟩).length = 720 :=
  ((schedule_termination_spec ⟨1000, 0, ⟨2024, 1, 1⟩, 1, "payment", "Annuity", 0,
      none, 0, [], [], none, none⟩).2.2
    (by decide) zeroPaymentSchedule_all_gt).1

set_option maxRecDepth 4000 in
/-- Witness for C3: the zero-rate scenario reaches exact payoff and its
balance reductions sum to the opening balance. -/
theorem schedule_clamp_conservation_witness :
    ((generateSchedule ⟨12000, 0, ⟨2024, 1, 1⟩, 1, "payment", "Annuity", 1000, none, 0,
        [], [], none, none⟩).map (fun p => p.startBalance - p.endBalance)).sum =
      12000 :=
  (schedule_clamp_conservation ⟨12000, 0, ⟨2024, 1, 1⟩, 1, "payment", "Annuity", 1000,
      none, 0, [], [], none, none⟩).2
    ((generateSchedule ⟨12000, 0, ⟨2024, 1, 1⟩, 1, "payment", "Annuity", 1000, none, 0,
        [], [], none, none⟩).getLast?.getD ⟨0, ⟨0, 0, 0⟩, 0, 0, 0, 0, 0, 0, 0, 0, 0, ""⟩)
    (by with_unfolding_all decide) (by with_unfolding_all decide)

set_option maxRecDepth 4000 in
/-- Witness for C10: the first period of a concrete schedule does not
increase the balance. -/
theorem schedule_monotone_balance_witness :
    ((generateSchedule ⟨2000, 0, ⟨2024, 1, 1⟩, 1, "payment", "Annuity", 100, none, 0,
        [], [], none, none⟩).headD
      ⟨0, ⟨0, 0, 0⟩, 0, 0, 0, 0, 0, 0, 0, 0, 0, ""⟩).endBalance ≤
    ((generateSchedule ⟨2000, 0, ⟨2024, 1, 1⟩, 1, "payment", "Annuity", 100, none, 0,
        [], [], none, none⟩).headD
      ⟨0, ⟨0, 0, 0⟩, 0, 0, 0, 0, 0, 0, 0, 0, 0, ""⟩).startBalance :=
  schedule_monotone_balance ⟨2000, 0, ⟨2024, 1, 1⟩, 1, "payment", "Annuity", 100,
      none, 0, [], [], none, none⟩
    (by with_unfolding_all decide) (by with_unfolding_all decide) (by simp)
    ((generateSchedule ⟨2000, 0, ⟨2024, 1, 1⟩, 1, "payment", "Annuity", 100, none, 0,
        [], [], none, none⟩).headD
      ⟨0, ⟨0, 0, 0⟩, 0, 0, 0, 0, 0, 0, 0, 0, 0, ""⟩)
    (by with_unfolding_all decide)

end Ziva
